import Mathlib

/-!
Verification of the data-preparation pipelines of the
`data-analytics-portfolio` repository (Airbnb, Telco, Instacart case
studies).  Each Python stage is shallowly embedded: a dataframe is a list
of rows (a structure of typed fields, `Option` marking a missing / NaN
cell), float arithmetic is modelled over `ℚ`, and the `pd.cut` calls are
transcribed with their right-closed `(lo, hi]` interval semantics
(`include_lowest=False` unless the source passes it).  Fallible steps
return `Except`/`Option`.
-/

namespace Telco

/-- Row of the Telco dataset restricted to the columns read by the
feature-engineering rules under study (`engineer_features` in
`Telco-Customer-Churn/scripts/data_preprocessing.py`). -/
structure TelcoRow where
  contract : String
  tenure : ℚ
  monthlyCharges : ℚ
  internetService : String
  paymentMethod : String
deriving DecidableEq

/-- Contract block of `calculate_risk_score`: Month-to-month adds 3,
One year adds 1. -/
def contract_risk (c : String) : ℤ :=
  if c = "Month-to-month" then 3 else if c = "One year" then 1 else 0

/-- Tenure block of `calculate_risk_score`: tenure at most 12 adds 2. -/
def tenure_risk (t : ℚ) : ℤ :=
  if t ≤ 12 then 2 else 0

/-- Charges block of `calculate_risk_score`: MonthlyCharges strictly above
the run-time 75th percentile `p75` adds 1. -/
def charges_risk (p75 x : ℚ) : ℤ :=
  if x > p75 then 1 else 0

/-- Internet block of `calculate_risk_score`: Fiber optic adds 1. -/
def internet_risk (s : String) : ℤ :=
  if s = "Fiber optic" then 1 else 0

/-- Payment block of `calculate_risk_score`: Electronic check adds 1. -/
def payment_risk (s : String) : ℤ :=
  if s = "Electronic check" then 1 else 0

/-- `calculate_risk_score` from `engineer_features`: the sum of the five
rule blocks, where `p75` stands for the run-time computed
`df[MonthlyCharges].quantile(0.75)`. -/
def calculate_risk_score (p75 : ℚ) (r : TelcoRow) : ℤ :=
  contract_risk r.contract + tenure_risk r.tenure +
    charges_risk p75 r.monthlyCharges + internet_risk r.internetService +
    payment_risk r.paymentMethod

/-- `Risk_Category`: `pd.cut(Risk_Score, bins=[-1,2,4,8])` with labels
Low/Medium/High Risk; pd.cut bins are right-closed, so the intervals are
(-1,2], (2,4], (4,8] and anything outside yields a missing label. -/
def risk_Category (s : ℤ) : Option String :=
  if -1 < s ∧ s ≤ 2 then some "Low Risk"
  else if 2 < s ∧ s ≤ 4 then some "Medium Risk"
  else if 4 < s ∧ s ≤ 8 then some "High Risk"
  else none

/-- `Tenure_Group`: `pd.cut(tenure, bins=[0,12,24,48,inf])`; right-closed
intervals (0,12], (12,24], (24,48], (48,inf); a tenure outside every
interval (in particular tenure 0) yields a missing label. -/
def tenure_Group (t : ℚ) : Option String :=
  if 0 < t ∧ t ≤ 12 then some "New (0-12m)"
  else if 12 < t ∧ t ≤ 24 then some "Growing (13-24m)"
  else if 24 < t ∧ t ≤ 48 then some "Mature (25-48m)"
  else if 48 < t then some "Loyal (48m+)"
  else none

/-- `High_Charges` flag from `engineer_features`: Yes when MonthlyCharges
is at least (note: not strictly above) the run-time 75th percentile. -/
def high_Charges (p75 x : ℚ) : String :=
  if x ≥ p75 then "Yes" else "No"

/-- Simplified model of the pandas numeric parser used by
`pd.to_numeric`: an optional sign, a nonempty digit string, and an
optional fractional part.  It accepts every value the claims evaluate and
rejects non-numeric text such as "abc". -/
def parseDigits (cs : List Char) : Option ℕ :=
  if cs ≠ [] ∧ cs.all Char.isDigit then
    some (cs.foldl (fun n c => 10 * n + (c.toNat - 48)) 0)
  else none

/-- Numeric parse of one cell (see `parseDigits`). -/
def parseNum (s : String) : Option ℚ :=
  let withSign : ℚ × List Char :=
    match s.data with
    | '-' :: t => (-1, t)
    | '+' :: t => (1, t)
    | t => (1, t)
  match (withSign.2.splitOn '.') with
  | [ip] => (parseDigits ip).map (fun n => withSign.1 * n)
  | [ip, fp] =>
    match parseDigits ip, parseDigits fp with
    | some i, some f =>
      some (withSign.1 * ((i : ℚ) + (f : ℚ) / (10 : ℚ) ^ fp.length))
    | _, _ => none
  | _ => none

/-- Column median as pandas computes it: sort, take the middle element
for odd length and the mean of the two middle elements for even length;
the median of an empty column is missing (NaN). -/
def median (xs : List ℚ) : Option ℚ :=
  let s := xs.insertionSort (fun a b => a ≤ b)
  let n := xs.length
  if n = 0 then none
  else if n % 2 = 1 then s.get? (n / 2)
  else
    match s.get? (n / 2 - 1), s.get? (n / 2) with
    | some a, some b => some ((a + b) / 2)
    | _, _ => none

/-- `pd.to_numeric` with the default `errors` policy: a NaN cell stays
NaN, a parseable cell is parsed, and the first unparseable cell raises
(returned as the `Except.error` payload). -/
def to_numeric : List (Option String) → Except String (List (Option ℚ))
  | [] => Except.ok []
  | none :: t => (to_numeric t).map (fun l => none :: l)
  | some s :: t =>
    match parseNum s with
    | some q => (to_numeric t).map (fun l => some q :: l)
    | none => Except.error s

/-- The `TotalCharges` branch of `clean_data`: replace the blank string
cell " " by NaN, run `pd.to_numeric` (raising on any remaining
unparseable cell), then fill the missing cells with the column median. -/
def clean_TotalCharges (xs : List String) : Except String (List (Option ℚ)) :=
  let replaced : List (Option String) :=
    xs.map (fun s => if s = " " then none else some s)
  match to_numeric replaced with
  | Except.error e => Except.error e
  | Except.ok parsed =>
    let m := median (parsed.filterMap id)
    Except.ok (parsed.map (fun o => match o with | some q => some q | none => m))

/-- The value `clean_TotalCharges` is expected to produce when every cell
is the blank string or numeric text: blanks become the median of the
parsed cells, everything else its parsed value. -/
def expected_TotalCharges (xs : List String) : List (Option ℚ) :=
  let vals := xs.filterMap (fun s => if s = " " then none else parseNum s)
  xs.map (fun s => if s = " " then median vals else parseNum s)

end Telco

namespace Airbnb

/-- Row of the Airbnb dataset restricted to the columns read by
`clean_airbnb_data` and `engineer_features`
(`Optimizing-Airbnb-Listings-for-Higher-Revenue/scripts/data_preprocessing.py`);
`none` models a NaN cell. -/
structure AirbnbRow where
  neighbourhood_group : Option String
  room_type : Option String
  price : Option ℚ
  number_of_reviews : Option ℚ
  reviews_per_month : Option ℚ
  calculated_host_listings_count : Option ℚ
  availability_365 : Option ℚ
deriving DecidableEq

/-- `clean_airbnb_data`: copies the input, keeps rows whose price lies in
[price_min, price_max] (the NaN comparisons of the pandas mask are false,
so a missing price is dropped), drops rows missing a critical column, and
fills reviews with 0 and host-listing count with 1.  The source defaults
are price_min = 10, price_max = 1000. -/
def clean_airbnb_data (df : List AirbnbRow) (price_min price_max : ℚ) :
    List AirbnbRow :=
  let df1 := df.filter (fun r =>
    match r.price with
    | some p => decide (price_min ≤ p) && decide (p ≤ price_max)
    | none => false)
  let df2 := df1.filter (fun r =>
    r.neighbourhood_group.isSome && r.room_type.isSome && r.price.isSome)
  df2.map (fun r =>
    { r with
      number_of_reviews := some (r.number_of_reviews.getD 0)
      reviews_per_month := some (r.reviews_per_month.getD 0)
      calculated_host_listings_count :=
        some (r.calculated_host_listings_count.getD 1) })

/-- `host_type` rule of `engineer_features`: equal to 1 gives Single
Listing, at most 5 gives Multiple Listings, otherwise Super Host.  On a
NaN count both float comparisons are false, so the rule falls through to
Super Host. -/
def host_type_rule (x : Option ℚ) : String :=
  match x with
  | some v =>
    if v = 1 then "Single Listing"
    else if v ≤ 5 then "Multiple Listings"
    else "Super Host"
  | none => "Super Host"

/-- Bin edges of the `review_activity` call
`pd.cut(number_of_reviews, bins=[0, 0, 10, 50, inf])`, with the
duplicated edge 0 exactly as written in the source. -/
def review_activity_bins : List (WithTop ℚ) :=
  [(0 : ℚ), (0 : ℚ), (10 : ℚ), (50 : ℚ), ⊤]

/-- Bin edges of the `availability_category` call
`pd.cut(availability_365, bins=[0, 90, 180, 365])`. -/
def availability_bins : List (WithTop ℚ) :=
  [(0 : ℚ), (90 : ℚ), (180 : ℚ), (365 : ℚ)]

/-- Bin edges of the `price_category` call
`pd.cut(price, bins=[0, 75, 150, 300, inf])`. -/
def price_bins : List (WithTop ℚ) :=
  [(0 : ℚ), (75 : ℚ), (150 : ℚ), (300 : ℚ), ⊤]

/-- Right-closed bin lookup over the `review_activity` edges as written.
This describes only the binning the call would perform after edge
validation; the call itself never reaches it, because `pd.cut` under its
default duplicates=raise policy raises ValueError on the duplicated edge
0 first (see `engineer_features`). -/
def cut_review_activity (n : Option ℚ) : Option String :=
  match n with
  | none => none
  | some x =>
    if 0 < x ∧ x ≤ 0 then some "No Reviews"
    else if 0 < x ∧ x ≤ 10 then some "Few Reviews"
    else if 10 < x ∧ x ≤ 50 then some "Many Reviews"
    else if 50 < x then some "Highly Reviewed"
    else none

/-- `availability_category`: `pd.cut(availability_365, bins=[0,90,180,365])`
with right-closed intervals (0,90], (90,180], (180,365]; the lowest edge 0
is not included in any interval. -/
def cut_availability (a : Option ℚ) : Option String :=
  match a with
  | none => none
  | some x =>
    if 0 < x ∧ x ≤ 90 then some "Low Available"
    else if 90 < x ∧ x ≤ 180 then some "Medium Available"
    else if 180 < x ∧ x ≤ 365 then some "High Available"
    else none

/-- `price_category`: `pd.cut(price, bins=[0,75,150,300,inf])` with
right-closed intervals (0,75], (75,150], (150,300], (300,inf). -/
def cut_price_category (p : Option ℚ) : Option String :=
  match p with
  | none => none
  | some x =>
    if 0 < x ∧ x ≤ 75 then some "Budget"
    else if 75 < x ∧ x ≤ 150 then some "Mid-Range"
    else if 150 < x ∧ x ≤ 300 then some "Premium"
    else if 300 < x then some "Luxury"
    else none

/-- Row after the Airbnb `engineer_features` stage would complete: the
base columns plus the five derived columns. -/
structure AirbnbFeatRow where
  base : AirbnbRow
  revenue_potential : Option ℚ
  host_type : String
  review_activity : Option String
  availability_category : Option String
  price_category : Option String
deriving DecidableEq

/-- Row-wise binning body of the Airbnb `engineer_features` stage: the
derived values each row would receive if every `pd.cut` edge validation
passed.  It is only ever invoked from the unreachable success branch of
`engineer_features`. -/
def engineerRow (r : AirbnbRow) : AirbnbFeatRow :=
  { base := r
    revenue_potential :=
      match r.price, r.availability_365 with
      | some p, some a => some (p * (365 - a) / 365)
      | _, _ => none
    host_type := host_type_rule r.calculated_host_listings_count
    review_activity := cut_review_activity r.number_of_reviews
    availability_category := cut_availability r.availability_365
    price_category := cut_price_category r.price }

/-- The Airbnb `engineer_features` stage.  The revenue_potential and
host_type assignments always succeed; each following `pd.cut` call, in
statement order, first validates its bin edges under the default
duplicates=raise policy and raises ValueError when an edge repeats, before
binning any data.  The review_activity edges [0, 0, 10, 50, inf] repeat 0,
so the stage raises there on every input, and the availability and price
cuts are never reached. -/
def engineer_features (df : List AirbnbRow) : Except String (List AirbnbFeatRow) :=
  if review_activity_bins.Nodup then
    if availability_bins.Nodup then
      if price_bins.Nodup then Except.ok (df.map engineerRow)
      else Except.error "Bin edges must be unique"
    else Except.error "Bin edges must be unique"
  else Except.error "Bin edges must be unique"

/-- `clean_airbnb_data` together with the state of the object the caller
passed in: the function starts from `df.copy()` and only writes to the
copy, so the second component, the caller frame after the call, is the
input itself. -/
def clean_airbnb_data_full (df : List AirbnbRow) (price_min price_max : ℚ) :
    List AirbnbRow × List AirbnbRow :=
  (clean_airbnb_data df price_min price_max, df)

/-- `load_and_prepare_data`, with the filesystem and csv reader passed in
explicitly: `ex` models `os.path.exists`, `read_csv` models `pd.read_csv`
(`none` standing for a raised error) and `sample` stands for the frame
built by the seeded `create_sample_data()`.  The result is the prepared
frame together with the printed lines (shape suffixes elided); a raise
anywhere — in `read_csv` or the ValueError inside `engineer_features` —
propagates, leaving the first component `none` with the completion line
unprinted. -/
def load_and_prepare_data (ex : String → Bool)
    (read_csv : String → Option (List AirbnbRow))
    (sample : List AirbnbRow) (file_path : Option String) :
    Option (List AirbnbFeatRow) × List String :=
  let run : List AirbnbRow → List String →
      Option (List AirbnbFeatRow) × List String := fun df logs =>
    match engineer_features (clean_airbnb_data df 10 1000) with
    | Except.ok out => (some out, logs ++ ["Data preparation complete!"])
    | Except.error _ => (none, logs)
  match file_path with
  | some p =>
    if p ≠ "" && ex p then
      match read_csv p with
      | some df => run df ["Loading data from: " ++ p]
      | none => (none, ["Loading data from: " ++ p])
    else run sample ["Creating sample data for demonstration..."]
  | none => run sample ["Creating sample data for demonstration..."]

end Airbnb

namespace Instacart

/-- Row of the Instacart master dataset restricted to the columns read by
`clean_data` and `engineer_features`
(`instacart-insights-4p-analytics/scripts/data_preprocessing.py`) and by
the executive summaries.  The engineered columns are carried as `Option`
fields that are `none` until the corresponding assignment runs, because
those assignments write new columns into an existing frame. -/
structure InstaRow where
  order_id : ℤ
  order_number : ℤ
  order_dow : ℤ
  order_hour_of_day : ℚ
  days_since_prior_order : Option ℚ
  product_id : ℤ
  product_name : Option String
  department : Option String
  aisle : Option String
  reordered : ℚ
  synthetic_date : Option ℤ
  order_dow_name : Option String
  hour_category : Option String
  basket_size : Option ℤ
  time_period : Option String
deriving DecidableEq

/-- `order_dow_name`: the `.map` over the day dictionary; a day outside
0..6 maps to NaN. -/
def dow_name (d : ℤ) : Option String :=
  if d = 0 then some "Sunday"
  else if d = 1 then some "Monday"
  else if d = 2 then some "Tuesday"
  else if d = 3 then some "Wednesday"
  else if d = 4 then some "Thursday"
  else if d = 5 then some "Friday"
  else if d = 6 then some "Saturday"
  else none

/-- `hour_category`: `pd.cut(order_hour_of_day, bins=[0,6,12,18,24],
include_lowest=True)`, so the intervals are [0,6], (6,12], (12,18],
(18,24]. -/
def cut_hour_category (h : ℚ) : Option String :=
  if 0 ≤ h ∧ h ≤ 6 then some "Night"
  else if 6 < h ∧ h ≤ 12 then some "Morning"
  else if 12 < h ∧ h ≤ 18 then some "Afternoon"
  else if 18 < h ∧ h ≤ 24 then some "Evening"
  else none

/-- Instacart `clean_data` with the state of the object the caller passed
in.  The function does not copy: the fillna assignment on
`days_since_prior_order` writes into the caller frame (first binding),
while the later `df = df.dropna(...)` merely rebinds the local name to a
fresh frame.  The second component is the caller frame after the call. -/
def clean_data (df : List InstaRow) : List InstaRow × List InstaRow :=
  let df1 := df.map (fun r =>
    { r with days_since_prior_order := some (r.days_since_prior_order.getD 0) })
  let df2 := df1.filter (fun r =>
    r.product_name.isSome && r.department.isSome && r.aisle.isSome)
  (df2, df1)

/-- The equal-width edges of `pd.cut(order_number, bins=4)`: pandas takes
the column min and max, splits the range into 4 equal intervals; when
min < max it lowers the first edge by 0.1 percent of the range, and when
min = max it widens both ends by 0.1 percent first. -/
def time_period_edges (mn mx : ℚ) : ℚ × ℚ × ℚ × ℚ × ℚ :=
  if mn = mx then
    let lo := if mn = 0 then -(1 / 1000) else mn - |mn| * (1 / 1000)
    let hi := if mx = 0 then (1 / 1000) else mx + |mx| * (1 / 1000)
    (lo, lo + (hi - lo) / 4, lo + (hi - lo) / 2, lo + 3 * (hi - lo) / 4, hi)
  else
    (mn - (mx - mn) * (1 / 1000), mn + (mx - mn) / 4, mn + (mx - mn) / 2,
      mn + 3 * (mx - mn) / 4, mx)

/-- Bin lookup for `time_period` over the computed equal-width edges,
right-closed as every default `pd.cut`. -/
def cut_time_period (e : ℚ × ℚ × ℚ × ℚ × ℚ) (x : ℚ) : Option String :=
  if e.1 < x ∧ x ≤ e.2.1 then some "Period 1"
  else if e.2.1 < x ∧ x ≤ e.2.2.1 then some "Period 2"
  else if e.2.2.1 < x ∧ x ≤ e.2.2.2.1 then some "Period 3"
  else if e.2.2.2.1 < x ∧ x ≤ e.2.2.2.2 then some "Period 4"
  else none

/-- Assign `time_period` over a frame: pd.cut with an integer bin count
computes the edges from the column min and max; on an empty frame there
is nothing to assign. -/
def time_period_assign (df : List InstaRow) : List InstaRow :=
  match df with
  | [] => []
  | h :: t =>
    let mn : ℚ := t.foldl (fun m r => min m (r.order_number : ℚ)) (h.order_number : ℚ)
    let mx : ℚ := t.foldl (fun m r => max m (r.order_number : ℚ)) (h.order_number : ℚ)
    (h :: t).map (fun r =>
      { r with time_period := cut_time_period (time_period_edges mn mx) (r.order_number : ℚ) })

/-- Instacart `engineer_features` with the state of the object the caller
passed in.  The three column assignments (`synthetic_date`,
`order_dow_name`, `hour_category`) write into the caller frame; the merge
with the per-order basket size then rebinds the local name to a fresh
frame, on which `time_period` is assigned.  The second component is the
caller frame after the call. -/
def engineer_features (df : List InstaRow) : List InstaRow × List InstaRow :=
  let df1 := df.map (fun r =>
    { r with
      synthetic_date := some (r.order_number.fdiv 1000)
      order_dow_name := dow_name r.order_dow
      hour_category := cut_hour_category r.order_hour_of_day })
  let df2 := df1.map (fun r =>
    { r with basket_size := some ((df1.countP (fun s => s.order_id == r.order_id) : ℤ)) })
  (time_period_assign df2, df1)

/-- Distinct weekend orders: `nunique` of `order_id` over the rows with
`order_dow` in {0, 6}. -/
def weekend_orders (df : List InstaRow) : ℕ :=
  ((df.filter (fun r => r.order_dow == 0 || r.order_dow == 6)).map
    (fun r => r.order_id)).dedup.length

/-- Distinct weekday orders: `nunique` of `order_id` over the rows with
`order_dow` not in {0, 6}. -/
def weekday_orders (df : List InstaRow) : ℕ :=
  ((df.filter (fun r => !(r.order_dow == 0 || r.order_dow == 6))).map
    (fun r => r.order_id)).dedup.length

/-- The `weekend_lift` metric of `generate_executive_summary` (identical
in `scripts/complete_4p_analysis.py` and
`scripts/instacart_analysis_demo.py`): (W - D) / D * 100 guarded by
`if weekday_orders > 0 else 0`. -/
def weekend_lift (df : List InstaRow) : ℚ :=
  let W := weekend_orders df
  let D := weekday_orders df
  if 0 < D then ((W : ℚ) - (D : ℚ)) / (D : ℚ) * 100 else 0

end Instacart

namespace Fixtures

/-- A fully populated Airbnb listing row used as a concrete input. -/
def airbnbRowOk : Airbnb.AirbnbRow :=
  ⟨some "Manhattan", some "Entire home/apt", some 50, some 3, some 1,
    some 2, some 100⟩

/-- An Airbnb listing row available 0 days of the year. -/
def airbnbRowAvailZero : Airbnb.AirbnbRow :=
  ⟨some "Brooklyn", some "Private room", some 80, some 3, some 1,
    some 2, some 0⟩

/-- A concrete Instacart row with the given day of week and order id. -/
def mkInsta (d oid : ℤ) : Instacart.InstaRow :=
  ⟨oid, 1, d, 10, some 0, 1, some "Banana", some "produce",
    some "fresh fruits", 0, none, none, none, none, none⟩

/-- A concrete Instacart frame with two weekend orders and one weekday
order. -/
def instaSampleDf : List Instacart.InstaRow :=
  [mkInsta 0 1, mkInsta 6 2, mkInsta 2 3]

/-- A concrete Instacart row whose days_since_prior_order cell is
missing. -/
def instaRowMissing : Instacart.InstaRow :=
  ⟨1, 1, 0, 10, none, 1, some "Banana", some "produce",
    some "fresh fruits", 0, none, none, none, none, none⟩

end Fixtures

/-- Helper: `to_numeric` succeeds on the blank-masked column when every
cell is blank or numeric text, and returns exactly the pointwise parse. -/
theorem to_numeric_ok (xs : List String)
    (h : ∀ s ∈ xs, s = " " ∨ (Telco.parseNum s).isSome) :
    Telco.to_numeric (xs.map (fun s => if s = " " then none else some s)) =
      Except.ok (xs.map (fun s => if s = " " then none else Telco.parseNum s)) := by
  induction xs with
  | nil => rfl
  | cons s t ih =>
    have ht : ∀ u ∈ t, u = " " ∨ (Telco.parseNum u).isSome := fun u hu =>
      h u (List.mem_cons_of_mem _ hu)
    have hs := h s (List.mem_cons_self _ _)
    by_cases hb : s = " "
    · simp [Telco.to_numeric, hb, ih ht, Except.map]
    · obtain ⟨q, hq⟩ := Option.isSome_iff_exists.mp (hs.resolve_left hb)
      simp [Telco.to_numeric, hb, hq, ih ht, Except.map]

/-- Claim C1 (confirmed): a row with Contract Month-to-month, tenure 6,
MonthlyCharges strictly above the run-time 75th percentile, Fiber optic
internet and Electronic check payment scores 3+2+1+1+1 = 8, which the
(-1,2,4,8] buckets label High Risk. -/
theorem claim_C1_high_risk_row (p75 : ℚ) (r : Telco.TelcoRow)
    (h1 : r.contract = "Month-to-month") (h2 : r.tenure = 6)
    (h3 : p75 < r.monthlyCharges) (h4 : r.internetService = "Fiber optic")
    (h5 : r.paymentMethod = "Electronic check") :
    Telco.calculate_risk_score p75 r = 3 + 2 + 1 + 1 + 1 ∧
      Telco.risk_Category (Telco.calculate_risk_score p75 r) = some "High Risk" := by
  have hs : Telco.calculate_risk_score p75 r = 8 := by
    unfold Telco.calculate_risk_score Telco.contract_risk Telco.tenure_risk
      Telco.charges_risk Telco.internet_risk Telco.payment_risk
    rw [h1, h2, h4, h5, if_pos rfl, if_pos (by norm_num : (6 : ℚ) ≤ 12),
      if_pos h3, if_pos rfl, if_pos rfl]
    decide
  refine ⟨by rw [hs]; norm_num, ?_⟩
  rw [hs]
  decide

/-- Concrete instance of claim C1. -/
theorem claim_C1_witness :
    Telco.calculate_risk_score 70
        ⟨"Month-to-month", 6, 100, "Fiber optic", "Electronic check"⟩ =
      3 + 2 + 1 + 1 + 1 ∧
      Telco.risk_Category (Telco.calculate_risk_score 70
        ⟨"Month-to-month", 6, 100, "Fiber optic", "Electronic check"⟩) =
      some "High Risk" :=
  claim_C1_high_risk_row 70 _ rfl rfl (by norm_num) rfl rfl

/-- Claim C9 (confirmed): at MonthlyCharges exactly equal to the 75th
percentile the High_Charges flag is Yes (comparison with at least) while
the charges contribution to the risk score is 0 (strict comparison); away
from the threshold the two agree. -/
theorem claim_C9_threshold_disagreement (p75 x : ℚ) :
    (x = p75 → Telco.high_Charges p75 x = "Yes" ∧ Telco.charges_risk p75 x = 0) ∧
      (x ≠ p75 →
        (Telco.high_Charges p75 x = "Yes" ↔ Telco.charges_risk p75 x = 1)) := by
  constructor
  · rintro rfl
    exact ⟨by simp [Telco.high_Charges], by simp [Telco.charges_risk]⟩
  · intro hne
    unfold Telco.high_Charges Telco.charges_risk
    rcases lt_or_gt_of_ne hne with hlt | hgt
    · rw [if_neg (not_le.mpr hlt), if_neg (not_lt.mpr hlt.le)]
      simp
    · rw [if_pos hgt.le, if_pos hgt]
      simp

/-- Concrete instance of claim C9 at the threshold. -/
theorem claim_C9_witness :
    Telco.high_Charges 5 5 = "Yes" ∧ Telco.charges_risk 5 5 = 0 :=
  (claim_C9_threshold_disagreement 5 5).1 rfl

/-- Counterexample to claim C6 as stated: a row with tenure 0 receives a
missing Tenure_Group, not the label of a bin containing 0, because the
(0,12] interval of `pd.cut` excludes its lowest edge. -/
theorem claim_C6_counterexample : Telco.tenure_Group 0 = none := by decide

/-- Claim C6 amended (proved): for every row with tenure strictly above
0, Tenure_Group is the label of the right-closed bin (0,12], (12,24],
(24,48], (48,inf) containing the tenure; in particular tenure 24 yields
Growing (13-24m), while tenure 0 is left unlabelled. -/
theorem claim_C6_amended_tenure_buckets (t : ℚ) (h : 0 < t) :
    (t ≤ 12 → Telco.tenure_Group t = some "New (0-12m)") ∧
      (12 < t → t ≤ 24 → Telco.tenure_Group t = some "Growing (13-24m)") ∧
      (24 < t → t ≤ 48 → Telco.tenure_Group t = some "Mature (25-48m)") ∧
      (48 < t → Telco.tenure_Group t = some "Loyal (48m+)") := by
  unfold Telco.tenure_Group
  refine ⟨fun h12 => ?_, fun h12 h24 => ?_, fun h24 h48 => ?_, fun h48 => ?_⟩
  · rw [if_pos ⟨h, h12⟩]
  · rw [if_neg (by push_neg; intro _; linarith), if_pos ⟨h12, h24⟩]
  · rw [if_neg (by push_neg; intro _; linarith),
      if_neg (by push_neg; intro _; linarith), if_pos ⟨h24, h48⟩]
  · rw [if_neg (by push_neg; intro _; linarith),
      if_neg (by push_neg; intro _; linarith),
      if_neg (by push_neg; intro _; linarith), if_pos h48]

/-- Concrete instance of the amended claim C6: tenure 24 is labelled
Growing (13-24m). -/
theorem claim_C6_witness : Telco.tenure_Group 24 = some "Growing (13-24m)" :=
  (claim_C6_amended_tenure_buckets 24 (by norm_num)).2.1 (by norm_num) (by norm_num)

/-- Counterexample to claim C2 as stated: `clean_data` runs
`pd.to_numeric` without an error-coercion policy, so a TotalCharges cell
that is non-blank and non-numeric raises instead of being treated as
missing. -/
theorem claim_C2_counterexample :
    Telco.clean_TotalCharges ["108.15", "abc"] = Except.error "abc" := by rfl

/-- Claim C2 amended (proved): the numeric coercion of `clean_data` never
raises exactly when every TotalCharges cell is the blank string or
numeric text; the blanks are treated as missing and are filled with the
median of the parsed cells, everything else is parsed in place. -/
theorem claim_C2_amended_blank_only (xs : List String)
    (h : ∀ s ∈ xs, s = " " ∨ (Telco.parseNum s).isSome) :
    Telco.clean_TotalCharges xs = Except.ok (Telco.expected_TotalCharges xs) := by
  have hrw := to_numeric_ok xs h
  simp only [Telco.clean_TotalCharges, Telco.expected_TotalCharges, hrw,
    List.filterMap_map, List.map_map, Function.id_comp]
  congr 1
  apply List.map_congr_left
  intro s hsmem
  by_cases hb : s = " "
  · simp [Function.comp, hb]
  · obtain ⟨q, hq⟩ := Option.isSome_iff_exists.mp ((h s hsmem).resolve_left hb)
    simp [Function.comp, hb, hq]

/-- Concrete instance of the amended claim C2: a blank cell propagates to
the median fill and the numeric cell is parsed. -/
theorem claim_C2_witness :
    Telco.clean_TotalCharges [" ", "2"] =
      Except.ok (Telco.expected_TotalCharges [" ", "2"]) :=
  claim_C2_amended_blank_only [" ", "2"] (by decide)

/-- Helper: every row surviving `clean_airbnb_data` has the critical
columns present and its price within the configured bounds. -/
theorem mem_clean_airbnb {df : List Airbnb.AirbnbRow} {pmin pmax : ℚ}
    {r : Airbnb.AirbnbRow} (h : r ∈ Airbnb.clean_airbnb_data df pmin pmax) :
    r.neighbourhood_group.isSome ∧ r.room_type.isSome ∧
      ∃ p, r.price = some p ∧ pmin ≤ p ∧ p ≤ pmax := by
  simp only [Airbnb.clean_airbnb_data, List.mem_map, List.mem_filter] at h
  obtain ⟨s, ⟨⟨hmem, hprice⟩, hcrit⟩, rfl⟩ := h
  simp only [Bool.and_eq_true] at hcrit
  obtain ⟨⟨hng, hrt⟩, hpr⟩ := hcrit
  cases hp : s.price with
  | none => rw [hp] at hprice; exact absurd hprice (by simp)
  | some p =>
    rw [hp] at hprice
    simp only [Bool.and_eq_true, decide_eq_true_eq] at hprice
    exact ⟨hng, hrt, p, rfl, hprice.1, hprice.2⟩

/-- Claim C5 (confirmed): for every input frame and bounds, every row of
the output of `clean_airbnb_data` has neighbourhood_group, room_type and
price present, with the price inside [price_min, price_max] (the source
defaults being 10 and 1000). -/
theorem claim_C5_clean_output_bounds (df : List Airbnb.AirbnbRow)
    (pmin pmax : ℚ) (r : Airbnb.AirbnbRow)
    (h : r ∈ Airbnb.clean_airbnb_data df pmin pmax) :
    r.neighbourhood_group.isSome ∧ r.room_type.isSome ∧
      ∃ p, r.price = some p ∧ pmin ≤ p ∧ p ≤ pmax :=
  mem_clean_airbnb h

/-- Concrete instance of claim C5. -/
theorem claim_C5_witness :
    Fixtures.airbnbRowOk.neighbourhood_group.isSome ∧
      Fixtures.airbnbRowOk.room_type.isSome ∧
      ∃ p, Fixtures.airbnbRowOk.price = some p ∧ 10 ≤ p ∧ p ≤ 1000 :=
  claim_C5_clean_output_bounds [Fixtures.airbnbRowOk] 10 1000
    Fixtures.airbnbRowOk (by decide)

/-- Claim C3 (code bug): on the 1000-row seeded sample frame the
pipeline does not succeed: after cleaning, `engineer_features` raises
ValueError at the review_activity `pd.cut`, whose bin edges
[0, 0, 10, 50, inf] repeat the edge 0, before any price_category is
assigned. -/
theorem claim_C3_pipeline_raises :
    Airbnb.engineer_features
        (Airbnb.clean_airbnb_data (List.replicate 1000 Fixtures.airbnbRowOk) 10 1000) =
      Except.error "Bin edges must be unique" := by rfl

/-- Counterexample to claim C10 as stated: the Airbnb feature engineer
assigns no availability_category at all: on a one-listing frame with
availability_365 = 0 the stage raises at the earlier review_activity cut
and produces no output rows. -/
theorem claim_C10_counterexample :
    Airbnb.engineer_features [Fixtures.airbnbRowAvailZero] =
      Except.error "Bin edges must be unique" := by rfl

/-- Claim C10 amended (proved): the bucketing over edges [0,90,180,365]
used for availability_category is left-open right-closed without the
lowest edge, so availability_365 = 0 would map to no bin and the
category would be missing; but the stage raises ValueError at the
earlier review_activity cut, so that assignment is never reached. -/
theorem claim_C10_amended_unreached_cut (r : Airbnb.AirbnbRow)
    (h : r.availability_365 = some 0) :
    Airbnb.cut_availability r.availability_365 = none ∧
      Airbnb.engineer_features [r] = Except.error "Bin edges must be unique" := by
  constructor
  · rw [h]
    norm_num [Airbnb.cut_availability]
  · rfl

/-- Concrete instance of the amended claim C10. -/
theorem claim_C10_witness :
    Airbnb.cut_availability Fixtures.airbnbRowAvailZero.availability_365 = none ∧
      Airbnb.engineer_features [Fixtures.airbnbRowAvailZero] =
        Except.error "Bin edges must be unique" :=
  claim_C10_amended_unreached_cut Fixtures.airbnbRowAvailZero rfl

/-- Claim C7 (code bug): with a missing path `load_and_prepare_data`
does take the fallback branch — it never touches the csv reader and
prints the sample-data message — but the run then raises ValueError
inside `engineer_features` (duplicate review_activity bin edges), so the
preparation never completes and no frame is produced. -/
theorem claim_C7_fallback_raises :
    (Airbnb.load_and_prepare_data (fun _ => false) (fun _ => none)
        [Fixtures.airbnbRowOk] none).1 = none ∧
      "Creating sample data for demonstration..." ∈
        (Airbnb.load_and_prepare_data (fun _ => false) (fun _ => none)
          [Fixtures.airbnbRowOk] none).2 := by
  constructor
  · rfl
  · have h2 : (Airbnb.load_and_prepare_data (fun _ => false) (fun _ => none)
        [Fixtures.airbnbRowOk] none).2 =
        ["Creating sample data for demonstration..."] := rfl
    rw [h2]
    exact List.mem_singleton.mpr rfl

/-- Counterexample to claim C8 as stated: the Instacart `clean_data`
writes the filled days_since_prior_order column into the frame the caller
passed, so after the call the caller frame differs from the input. -/
theorem claim_C8_counterexample :
    (Instacart.clean_data [Fixtures.instaRowMissing]).2 ≠
      [Fixtures.instaRowMissing] := by decide

/-- Claim C8 amended (proved): the Airbnb cleaner copies first and leaves
the caller frame unchanged, while the Instacart clean_data and
engineer_features stages mutate the caller frame in place: clean_data
fills missing days_since_prior_order with 0 on it, and engineer_features
writes the synthetic_date, order_dow_name and hour_category columns into
it. -/
theorem claim_C8_amended_mutation (df : List Airbnb.AirbnbRow)
    (pmin pmax : ℚ) (idf : List Instacart.InstaRow) :
    (Airbnb.clean_airbnb_data_full df pmin pmax).2 = df ∧
      (Instacart.clean_data idf).2 =
        idf.map (fun r =>
          { r with days_since_prior_order := some (r.days_since_prior_order.getD 0) }) ∧
      (Instacart.engineer_features idf).2 =
        idf.map (fun r =>
          { r with
            synthetic_date := some (r.order_number.fdiv 1000)
            order_dow_name := Instacart.dow_name r.order_dow
            hour_category := Instacart.cut_hour_category r.order_hour_of_day }) :=
  ⟨rfl, rfl, rfl⟩

/-- Claim C4 (confirmed): with W the number of distinct weekend orders
and D the number of distinct weekday orders, the executive summaries
report weekend_lift = (W - D) / D * 100 when D is positive and fall back
to 0 when D is zero. -/
theorem claim_C4_weekend_lift (df : List Instacart.InstaRow) :
    (0 < Instacart.weekday_orders df →
      Instacart.weekend_lift df =
        ((Instacart.weekend_orders df : ℚ) - (Instacart.weekday_orders df : ℚ)) /
          (Instacart.weekday_orders df : ℚ) * 100) ∧
      (Instacart.weekday_orders df = 0 → Instacart.weekend_lift df = 0) := by
  constructor
  · intro h
    unfold Instacart.weekend_lift
    rw [if_pos h]
  · intro h
    unfold Instacart.weekend_lift
    rw [if_neg (by omega)]

/-- Concrete instance of claim C4 on a frame with two weekend orders and
one weekday order. -/
theorem claim_C4_witness :
    0 < Instacart.weekday_orders Fixtures.instaSampleDf ∧
      Instacart.weekend_lift Fixtures.instaSampleDf =
        ((Instacart.weekend_orders Fixtures.instaSampleDf : ℚ) -
            (Instacart.weekday_orders Fixtures.instaSampleDf : ℚ)) /
          (Instacart.weekday_orders Fixtures.instaSampleDf : ℚ) * 100 :=
  ⟨by decide, (claim_C4_weekend_lift Fixtures.instaSampleDf).1 (by decide)⟩
